import Mathlib

/-!
Verification of the Music-Library data-access layer.

This file is a shallow embedding of the relational data model and the
request handlers of the `music` app (models.py, forms.py, views.py).
Rows are Lean structures, the relational store is a structure of lists,
primary keys are natural numbers, timestamps are naturals supplied by the
caller (the clock), and each Django view or model method is translated to
a pure function on the store.  Query-set combinators are translated as
follows: `filter` is `List.filter`, `order_by` is a stable insertion sort
by the named column, slicing is `List.take`/`List.drop`, and
`get_object_or_404` is `List.find?` with a not-found outcome.
-/

namespace MusicLib

/-- A user of the accounts app: primary key and the staff flag that
`edit_song`/`delete_song` consult (`request.user.is_staff`). -/
structure UserRec where
  id : Nat
  is_staff : Bool
deriving DecidableEq, Repr

/-- An `Artist` row (models.py).  The schema gives `name` a plain
`CharField` and a non-unique `models.Index`; there is no `unique=True`. -/
structure Artist where
  id : Nat
  name : String
deriving DecidableEq, Repr

/-- models.py line 44: `name = models.CharField(max_length=200)` carries no
`unique=True`, and `Artist.Meta` declares only `models.Index(fields=[...])`,
which is not a uniqueness constraint.  So the store does not enforce
uniqueness of `Artist.name` server-side. -/
def Artist.name_unique : Bool := false

/-- A `Genre` row (models.py).  `name` is declared `unique=True`. -/
structure Genre where
  id : Nat
  name : String
deriving DecidableEq, Repr

/-- models.py line 20: `name = models.CharField(max_length=100, unique=True)`:
the store enforces uniqueness of `Genre.name` server-side. -/
def Genre.name_unique : Bool := true

/-- An `Album` row (models.py): `title` plus a foreign key to `Artist`. -/
structure Album where
  id : Nat
  title : String
  artist : Nat
deriving DecidableEq, Repr

/-- models.py `Album.Meta` declares two non-unique indexes and no
`unique_together` on `(title, artist)`: the natural key of `Album` is not
enforced unique server-side. -/
def Album.natural_key_unique : Bool := false

/-- A `Song` row (models.py).  `album` and `genre` are nullable foreign
keys; `upload_date` is the creation timestamp. -/
structure Song where
  id : Nat
  title : String
  artist : Nat
  album : Option Nat
  genre : Option Nat
  upload_date : Nat
  play_count : Nat
  download_count : Nat
  is_public : Bool
  is_featured : Bool
  uploaded_by : Nat
deriving DecidableEq, Repr

/-- models.py lines 184-187: `is_public = models.BooleanField(default=True)`
on `Song`. -/
def Song.is_public_default : Bool := true

/-- A `Playlist` row (models.py) with its many-to-many song membership. -/
structure Playlist where
  id : Nat
  name : String
  user : Nat
  songs : List Nat
  is_public : Bool
  is_collaborative : Bool
deriving DecidableEq, Repr

/-- models.py lines 269-272: `is_public = models.BooleanField(default=False)`
on `Playlist`. -/
def Playlist.is_public_default : Bool := false

/-- A `Favorite` row (models.py): `(user, song)` with `unique_together` and
a creation timestamp. -/
structure Favorite where
  user : Nat
  song : Nat
  added_at : Nat
deriving DecidableEq, Repr

/-- A `PlayHistory` row (models.py): one row per play event, never unique. -/
structure PlayHistoryRow where
  user : Nat
  song : Nat
  played_at : Nat
deriving DecidableEq, Repr

/-- A `Rating` row (models.py): `(user, song)` with `unique_together`,
value field `rating` restricted to choices 1..5. -/
structure Rating where
  user : Nat
  song : Nat
  rating : Int
deriving DecidableEq, Repr

/-- The relational store: one list per table, plus the auto-increment
counter used for fresh primary keys. -/
structure Store where
  artists : List Artist
  albums : List Album
  genres : List Genre
  songs : List Song
  playlists : List Playlist
  favorites : List Favorite
  play_history : List PlayHistoryRow
  ratings : List Rating
  next_id : Nat
deriving DecidableEq, Repr

/-- The empty store. -/
def Store.empty : Store :=
  { artists := [], albums := [], genres := [], songs := [], playlists := []
    favorites := [], play_history := [], ratings := [], next_id := 1 }

/-- Look a song up by primary key, as `get_object_or_404(Song, pk=pk)`
resolves it. -/
def find_song (st : Store) (pk : Nat) : Option Song :=
  st.songs.find? (fun s => s.id == pk)

/-- Visibility predicate of views.py: a song is visible to user `u` when
`is_public` is set or `u` uploaded it (`Q(is_public=True) |
Q(uploaded_by=request.user)`). -/
def song_visible_to (u : Nat) (s : Song) : Bool :=
  s.is_public || s.uploaded_by == u

/-- Playlist visibility as checked by `playlist_detail` (views.py line 364):
public, or owned by the requesting user. -/
def playlist_visible_to (u : Nat) (p : Playlist) : Bool :=
  p.is_public || p.user == u

/-- The visible-song queryset of `song_list` (views.py lines 75-77):
`Song.objects.filter(Q(is_public=True) | Q(uploaded_by=request.user))`. -/
def song_list_visible (u : Nat) (st : Store) : List Song :=
  st.songs.filter (song_visible_to u)

/-- `Song` creation with the model-level default for `is_public`
(models.py lines 184-187): when the creator supplies no explicit value the
Django field default applies. -/
def create_song (uploader : Nat) (pk : Nat) (date : Nat) (vis : Option Bool) : Song :=
  { id := pk, title := "", artist := 0, album := none, genre := none
    upload_date := date, play_count := 0, download_count := 0
    is_public := vis.getD Song.is_public_default, is_featured := false
    uploaded_by := uploader }

/-- `Playlist` creation with the model-level default for `is_public`
(models.py lines 269-272). -/
def create_playlist (owner : Nat) (pk : Nat) (vis : Option Bool) : Playlist :=
  { id := pk, name := "", user := owner, songs := []
    is_public := vis.getD Playlist.is_public_default, is_collaborative := false }

/-- Outcome of a view on a fetched object: rendered/processed normally,
rejected with the permission error message and redirect, or 404. -/
inductive ViewOutcome where
  | ok
  | permission_denied
  | not_found
deriving DecidableEq, Repr

/-- `song_detail` (views.py lines 130-141): fetch by pk, 404 when absent,
then reject when the song is not public and the requester did not upload
it. -/
def song_detail_check (u : UserRec) (pk : Nat) (st : Store) : ViewOutcome :=
  match find_song st pk with
  | none => .not_found
  | some s =>
      if !s.is_public && !(s.uploaded_by == u.id) then .permission_denied else .ok

/-- `download_song` (views.py lines 265-274): the same visibility check as
`song_detail`, applied before the download side effects. -/
def download_song_check (u : UserRec) (pk : Nat) (st : Store) : ViewOutcome :=
  match find_song st pk with
  | none => .not_found
  | some s =>
      if !s.is_public && !(s.uploaded_by == u.id) then .permission_denied else .ok

/-- `edit_song` (views.py lines 201-210): only the uploader or a staff
user may proceed. -/
def edit_song_check (u : UserRec) (pk : Nat) (st : Store) : ViewOutcome :=
  match find_song st pk with
  | none => .not_found
  | some s =>
      if !(s.uploaded_by == u.id) && !u.is_staff then .permission_denied else .ok

/-- `delete_song` (views.py lines 227-236): same ownership-or-staff check
as `edit_song`. -/
def delete_song_check (u : UserRec) (pk : Nat) (st : Store) : ViewOutcome :=
  match find_song st pk with
  | none => .not_found
  | some s =>
      if !(s.uploaded_by == u.id) && !u.is_staff then .permission_denied else .ok

/-- `playlist_detail` (views.py lines 357-366): fetch by pk, then reject
when the playlist is neither public nor owned by the requester. -/
def playlist_detail_check (u : UserRec) (pk : Nat) (st : Store) : ViewOutcome :=
  match st.playlists.find? (fun p => p.id == pk) with
  | none => .not_found
  | some p =>
      if !p.is_public && !(p.user == u.id) then .permission_denied else .ok

/-- `edit_playlist` (views.py line 403): the fetch is
`get_object_or_404(Playlist, pk=pk, user=request.user)`, so a playlist
owned by someone else resolves as 404, never as a permission error, and
staff users get no exemption. -/
def edit_playlist_check (u : UserRec) (pk : Nat) (st : Store) : ViewOutcome :=
  match st.playlists.find? (fun p => p.id == pk && p.user == u.id) with
  | none => .not_found
  | some _ => .ok

/-- `delete_playlist` (views.py line 424): same owner-filtered fetch as
`edit_playlist`. -/
def delete_playlist_check (u : UserRec) (pk : Nat) (st : Store) : ViewOutcome :=
  match st.playlists.find? (fun p => p.id == pk && p.user == u.id) with
  | none => .not_found
  | some _ => .ok

/-- `Song.increment_play_count` (models.py lines 208-211). -/
def increment_play_count (s : Song) : Song :=
  { s with play_count := s.play_count + 1 }

/-- Persist an updated song row: `save()` rewrites the row whose primary
key matches. -/
def save_song (l : List Song) (pk : Nat) (f : Song → Song) : List Song :=
  l.map (fun x => if x.id == pk then f x else x)

/-- `play_song` (views.py lines 244-261): fetch by pk (404 when absent),
increment the play counter, append one `PlayHistory` row, and answer with
the new play count.  The view performs no visibility check on the fetched
song.  `t` is the request clock supplying `played_at`. -/
def play_song (u pk t : Nat) (st : Store) : Option (Store × Nat) :=
  match find_song st pk with
  | none => none
  | some s =>
      some ({ st with
                songs := save_song st.songs pk increment_play_count
                play_history := st.play_history ++ [⟨u, pk, t⟩] },
            s.play_count + 1)

/-- Number of `PlayHistory` rows for a (user, song) pair. -/
def play_rows (st : Store) (u s : Nat) : Nat :=
  (st.play_history.filter (fun r => r.user == u && r.song == s)).length

/-- `n` sequential requests to `play_song` by the same user for the same
song. -/
def play_song_times (u pk t : Nat) : Nat → Store → Option Store
  | 0, st => some st
  | n + 1, st =>
      match play_song u pk t st with
      | none => none
      | some (st1, _) => play_song_times u pk t n st1

/-- Number of `Favorite` rows for a (user, song) pair; the schema keeps
this at most 1 via `unique_together` on (user, song) (models.py line
335). -/
def count_favorites (st : Store) (u s : Nat) : Nat :=
  (st.favorites.filter (fun f => f.user == u && f.song == s)).length

/-- `toggle_favorite` (views.py lines 480-499):
`Favorite.objects.get_or_create(user=..., song=...)` followed by a delete
when the row already existed; the returned flag is the new state.  `t` is
the request clock supplying `added_at`. -/
def toggle_favorite (u s t : Nat) (st : Store) : Store × Bool :=
  match st.favorites.find? (fun f => f.user == u && f.song == s) with
  | some f => ({ st with favorites := st.favorites.erase f }, false)
  | none => ({ st with favorites := st.favorites ++ [⟨u, s, t⟩] }, true)

/-- Values of the `Rating` rows for a (user, song) pair. -/
def rating_rows (st : Store) (u s : Nat) : List Int :=
  (st.ratings.filter (fun r => r.user == u && r.song == s)).map (fun r => r.rating)

/-- `Rating.objects.update_or_create(user=..., song=..., defaults=...)`
(views.py lines 609-613): overwrite the value of the existing row for the
pair, or append a fresh row when none exists. -/
def upsert_rating (u s : Nat) (v : Int) : List Rating → List Rating
  | [] => [⟨u, s, v⟩]
  | r :: rs =>
      if r.user == u && r.song == s then { r with rating := v } :: rs
      else r :: upsert_rating u s v rs

/-- `add_rating` (views.py lines 600-620): the posted value passes
`RatingForm` only when it is one of the model choices 1..5 (models.py lines
435-438); an invalid form writes nothing, a valid one upserts by
(user, song). -/
def add_rating (u s : Nat) (v : Int) (st : Store) : Store :=
  if 1 ≤ v ∧ v ≤ 5 then { st with ratings := upsert_rating u s v st.ratings }
  else st

/-- The get-or-create step of `SongUploadForm.clean` (forms.py lines
117-122): `Artist.objects.get_or_create(name=artist_name.strip())` —
resolve an existing row whose name equals the trimmed input, or create one
with a fresh primary key.  Returns the resolved id with the store. -/
def resolve_artist (name : String) (st : Store) : Nat × Store :=
  match st.artists.find? (fun a => a.name == name.trim) with
  | some a => (a.id, st)
  | none =>
      (st.next_id, { st with
        artists := st.artists ++ [⟨st.next_id, name.trim⟩]
        next_id := st.next_id + 1 })

/-- A raw `INSERT` of an `Artist` row as the store executes it: the schema
declares no unique constraint on `Artist.name` (only a non-unique index),
so the insert is accepted unconditionally and two independent creators of
the same name can both commit. -/
def db_insert_artist (name : String) (st : Store) : Store :=
  { st with
    artists := st.artists ++ [⟨st.next_id, name⟩]
    next_id := st.next_id + 1 }

/-- The sort allow-list of `song_list` (views.py line 96). -/
def valid_sorts : List String :=
  ["-upload_date", "title", "-play_count", "artist__name"]

/-- `ORDER BY upload_date DESC`: the `-upload_date` sort key, and also the
`Song.Meta` default ordering (models.py lines 193-194). -/
def by_upload_date_desc : Song → Song → Prop :=
  fun a b => b.upload_date ≤ a.upload_date

/-- `ORDER BY title ASC`: the `title` sort key. -/
def by_title_asc : Song → Song → Prop :=
  fun a b => a.title ≤ b.title

/-- `ORDER BY play_count DESC`: the `-play_count` sort key. -/
def by_play_count_desc : Song → Song → Prop :=
  fun a b => b.play_count ≤ a.play_count

/-- The artist name a song row joins to (empty for a dangling key). -/
def artist_name_of (arts : List Artist) (aid : Nat) : String :=
  ((arts.find? (fun a => a.id == aid)).map (fun a => a.name)).getD ""

/-- `ORDER BY` the joined artist name ascending: the `artist__name` sort
key. -/
def by_artist_name_asc (arts : List Artist) : Song → Song → Prop :=
  fun a b => artist_name_of arts a.artist ≤ artist_name_of arts b.artist

instance : DecidableRel by_upload_date_desc :=
  fun a b => Nat.decLe b.upload_date a.upload_date

instance : IsTotal Song by_upload_date_desc :=
  ⟨fun a b => Nat.le_total b.upload_date a.upload_date⟩

instance : IsTrans Song by_upload_date_desc :=
  ⟨fun _ _ _ hab hbc => le_trans hbc hab⟩

instance : DecidableRel by_title_asc :=
  fun a b => inferInstanceAs (Decidable (a.title ≤ b.title))

instance : IsTotal Song by_title_asc :=
  ⟨fun a b => le_total a.title b.title⟩

instance : IsTrans Song by_title_asc :=
  ⟨fun _ _ _ hab hbc => le_trans hab hbc⟩

instance : DecidableRel by_play_count_desc :=
  fun a b => Nat.decLe b.play_count a.play_count

instance : IsTotal Song by_play_count_desc :=
  ⟨fun a b => Nat.le_total b.play_count a.play_count⟩

instance : IsTrans Song by_play_count_desc :=
  ⟨fun _ _ _ hab hbc => le_trans hbc hab⟩

instance (arts : List Artist) : DecidableRel (by_artist_name_asc arts) :=
  fun a b =>
    inferInstanceAs (Decidable (artist_name_of arts a.artist ≤ artist_name_of arts b.artist))

instance (arts : List Artist) : IsTotal Song (by_artist_name_asc arts) :=
  ⟨fun a b => le_total (artist_name_of arts a.artist) (artist_name_of arts b.artist)⟩

instance (arts : List Artist) : IsTrans Song (by_artist_name_asc arts) :=
  ⟨fun _ _ _ hab hbc => le_trans hab hbc⟩

/-- `songs.order_by(sort_by)` for an allow-listed key (views.py line 98),
realised as a stable sort by the named column. -/
def order_by_key (arts : List Artist) (key : String) (l : List Song) : List Song :=
  if key = "-upload_date" then List.insertionSort by_upload_date_desc l
  else if key = "title" then List.insertionSort by_title_asc l
  else if key = "-play_count" then List.insertionSort by_play_count_desc l
  else if key = "artist__name" then List.insertionSort (by_artist_name_asc arts) l
  else l

/-- The sort step of `song_list` (views.py lines 94-98): an allow-listed
key is applied with `order_by`; any other supplied value is ignored,
leaving the queryset on the `Song.Meta` default ordering `-upload_date`
(newest first). -/
def apply_sort (arts : List Artist) (key : String) (l : List Song) : List Song :=
  if key ∈ valid_sorts then order_by_key arts key l
  else List.insertionSort by_upload_date_desc l

/-- The `PlayHistory` rows of one user
(`PlayHistory.objects.filter(user=request.user)`). -/
def my_rows (u : Nat) (rows : List PlayHistoryRow) : List PlayHistoryRow :=
  rows.filter (fun r => r.user == u)

/-- The per-group count annotation of the grouped query. -/
def count_plays (rows : List PlayHistoryRow) (s : Nat) : Nat :=
  (rows.filter (fun r => r.song == s)).length

/-- The ordering that the grouped query sorts by (`-play_count`):
play count descending and nothing more — the query names no secondary sort
key, so the relative order of groups with equal counts is left to the
store; the embedding realises the query with a stable sort over the group
list in encounter order. -/
def by_plays_desc : Nat × Nat → Nat × Nat → Prop :=
  fun a b => b.2 ≤ a.2

instance : DecidableRel by_plays_desc :=
  fun a b => Nat.decLe b.2 a.2

instance : IsTotal (Nat × Nat) by_plays_desc :=
  ⟨fun a b => Nat.le_total b.2 a.2⟩

instance : IsTrans (Nat × Nat) by_plays_desc :=
  ⟨fun _ _ _ hab hbc => le_trans hbc hab⟩

/-- The most-played computation of `user_stats` (views.py lines 662-666):
the queryset filtered to the user is grouped by song, each group is
counted, the groups are sorted by count descending, and the slice
truncates.  Each element is a (song id, play count) pair. -/
def most_played (u : Nat) (rows : List PlayHistoryRow) (limit : Nat) : List (Nat × Nat) :=
  (List.insertionSort by_plays_desc
    (((my_rows u rows).map (fun r => r.song)).dedup.map
      (fun s => (s, count_plays (my_rows u rows) s)))).take limit

/-- `user_stats` slices the grouped query with `[:10]`. -/
def user_stats_most_played (u : Nat) (rows : List PlayHistoryRow) : List (Nat × Nat) :=
  most_played u rows 10

/-- Latest `played_at` of a song within a row set (0 when absent). -/
def last_played (rows : List PlayHistoryRow) (s : Nat) : Nat :=
  ((rows.filter (fun r => r.song == s)).map (fun r => r.played_at)).foldr max 0

/-- The ordering the specification prescribes for `most_played`, written
from its words for comparison with the query: count descending, ties
broken by the most recent play timestamp descending. -/
def by_plays_then_recent (rows : List PlayHistoryRow) : Nat × Nat → Nat × Nat → Prop :=
  fun a b => b.2 < a.2 ∨ (a.2 = b.2 ∧ last_played rows b.1 ≤ last_played rows a.1)

instance (rows : List PlayHistoryRow) : DecidableRel (by_plays_then_recent rows) :=
  fun a b =>
    inferInstanceAs (Decidable (b.2 < a.2 ∨ (a.2 = b.2 ∧ last_played rows b.1 ≤ last_played rows a.1)))

/-- `most_played` as the specification words it, with the recency
tie-break, for comparison with the query the code runs. -/
def most_played_spec (u : Nat) (rows : List PlayHistoryRow) (limit : Nat) : List (Nat × Nat) :=
  (List.insertionSort (by_plays_then_recent (my_rows u rows))
    (((my_rows u rows).map (fun r => r.song)).dedup.map
      (fun s => (s, count_plays (my_rows u rows) s)))).take limit

/-- The `page` GET parameter as `Paginator.validate_number` classifies it:
absent (`int(None)` raises `TypeError`), non-numeric (`ValueError`), or an
integer. -/
inductive PageParam where
  | missing
  | nonNumeric
  | num (n : Int)
deriving DecidableEq, Repr

/-- `Paginator.num_pages`: ceiling of the row count over the page size,
with a final empty first page still counting as one page. -/
def num_pages (count per : Nat) : Nat :=
  max 1 ((count + per - 1) / per)

/-- The try/except around `paginator.page(page)` (views.py lines 104-109,
530-535 and 640-645): a `PageNotAnInteger` lands on page 1, an `EmptyPage`
(page number below 1 or beyond the last) lands on the last page. -/
def resolve_page (p : PageParam) (np : Nat) : Nat :=
  match p with
  | .missing => 1
  | .nonNumeric => 1
  | .num n => if n < 1 then np else if n > (np : Int) then np else n.toNat

/-- The rows of one resolved page. -/
def page_slice {α : Type} (l : List α) (per page : Nat) : List α :=
  (l.drop ((page - 1) * per)).take per

/-- views.py line 101: `Paginator(songs, 20)`. -/
def song_list_per_page : Nat := 20

/-- views.py line 527: `Paginator(artists, 24)`. -/
def artist_list_per_page : Nat := 24

/-- views.py line 637: `Paginator(history, 50)`. -/
def play_history_per_page : Nat := 50

/-- A public song with the earlier upload date, for the sort examples. -/
def early_song : Song :=
  { id := 11, title := "a", artist := 1, album := none, genre := none
    upload_date := 1, play_count := 0, download_count := 0
    is_public := true, is_featured := false, uploaded_by := 1 }

/-- A public song with the later upload date, for the sort examples. -/
def late_song : Song :=
  { early_song with id := 12, upload_date := 2 }

/-- The play history of the spec example: S1 three times, S2 five times,
S3 once, all by user 7. -/
def ex_history : List PlayHistoryRow :=
  [⟨7, 1, 1⟩, ⟨7, 1, 2⟩, ⟨7, 1, 3⟩, ⟨7, 2, 4⟩, ⟨7, 2, 5⟩,
   ⟨7, 2, 6⟩, ⟨7, 2, 7⟩, ⟨7, 2, 8⟩, ⟨7, 3, 9⟩]

/-- A demo user who uploaded nothing and is not staff. -/
def bob : UserRec := ⟨2, false⟩

/-- A private song uploaded by user 1. -/
def private_song : Song :=
  { id := 1, title := "s", artist := 1, album := none, genre := none
    upload_date := 0, play_count := 0, download_count := 0
    is_public := false, is_featured := false, uploaded_by := 1 }

/-- A private playlist owned by user 1. -/
def private_playlist : Playlist :=
  { id := 1, name := "p", user := 1, songs := []
    is_public := false, is_collaborative := false }

/-- A store holding only the private song and private playlist of user 1. -/
def demo_store : Store :=
  { Store.empty with songs := [private_song], playlists := [private_playlist] }

end MusicLib

namespace MusicLib

/-- C2: the visible-song listing of `song_list` contains a song exactly
when the song is in the store and is public or uploaded by the requesting
user. -/
theorem C2_song_list_visibility (u : Nat) (st : Store) (s : Song) :
    s ∈ song_list_visible u st ↔
      s ∈ st.songs ∧ (s.is_public = true ∨ s.uploaded_by = u) := by
  simp [song_list_visible, song_visible_to, List.mem_filter]

/-- `save_song` with an id-preserving update commutes with primary-key
lookup. -/
theorem find?_save_song (l : List Song) (pk : Nat) (f : Song → Song)
    (hf : ∀ s, (f s).id = s.id) :
    (save_song l pk f).find? (fun x => x.id == pk)
      = (l.find? (fun x => x.id == pk)).map f := by
  induction l with
  | nil => rfl
  | cons s l ih =>
      by_cases h : s.id = pk
      · have h1 : (s.id == pk) = true := beq_iff_eq.mpr h
        have h2 : ((f s).id == pk) = true := by rw [hf s]; exact h1
        simp only [save_song, List.map_cons, h1, if_true, List.find?_cons, h2]
        rfl
      · have h1 : (s.id == pk) = false := beq_eq_false_iff_ne.mpr h
        simp only [save_song, List.map_cons, h1, Bool.false_eq_true, if_false, List.find?_cons]
        simpa only [save_song] using ih

/-- One `play_song` request on a present song: the response carries the
incremented counter, the stored row is incremented by one, and exactly one
`PlayHistory` row for the requesting pair is appended. -/
theorem play_song_step (u pk t : Nat) (st : Store) (s : Song)
    (h : find_song st pk = some s) :
    ∃ st1, play_song u pk t st = some (st1, s.play_count + 1) ∧
      find_song st1 pk = some (increment_play_count s) ∧
      st1.play_history = st.play_history ++ [⟨u, pk, t⟩] ∧
      play_rows st1 u pk = play_rows st u pk + 1 := by
  refine ⟨{ st with
            songs := save_song st.songs pk increment_play_count
            play_history := st.play_history ++ [⟨u, pk, t⟩] }, ?_, ?_, rfl, ?_⟩
  · simp [play_song, h]
  · show (save_song st.songs pk increment_play_count).find? (fun x => x.id == pk)
        = some (increment_play_count s)
    rw [find?_save_song st.songs pk increment_play_count (fun _ => rfl)]
    have h2 : st.songs.find? (fun x => x.id == pk) = some s := h
    rw [h2]
    rfl
  · simp [play_rows, List.filter_append]

/-- Iterating `play_song` `n` times on a present song adds exactly `n` to
the stored play counter and exactly `n` history rows for the pair. -/
theorem play_song_times_spec (u pk t : Nat) (n : Nat) :
    ∀ (st : Store) (s : Song), find_song st pk = some s →
      ∃ stn sn, play_song_times u pk t n st = some stn ∧
        find_song stn pk = some sn ∧
        sn.play_count = s.play_count + n ∧
        play_rows stn u pk = play_rows st u pk + n := by
  induction n with
  | zero => intro st s h; exact ⟨st, s, rfl, h, rfl, rfl⟩
  | succ n ih =>
      intro st s h
      obtain ⟨st1, hplay, hfind, _, hrows⟩ := play_song_step u pk t st s h
      obtain ⟨stn, sn, hiter, hfindn, hcount, hrowsn⟩ := ih st1 _ hfind
      refine ⟨stn, sn, ?_, hfindn, ?_, ?_⟩
      · simp [play_song_times, hplay, hiter]
      · simp [increment_play_count] at hcount; omega
      · omega

/-- C6: `play_song` on a present song answers with the counter incremented
by exactly one, persists that increment, and appends exactly one
`PlayHistory` row for the requesting (user, song) pair; `n` sequential
calls add exactly `n` to the counter and exactly `n` history rows. -/
theorem C6_record_play_effects (u pk t n : Nat) (st : Store) (s : Song)
    (h : find_song st pk = some s) :
    (∃ st1, play_song u pk t st = some (st1, s.play_count + 1) ∧
      find_song st1 pk = some (increment_play_count s) ∧
      st1.play_history = st.play_history ++ [⟨u, pk, t⟩] ∧
      play_rows st1 u pk = play_rows st u pk + 1) ∧
    (∃ stn sn, play_song_times u pk t n st = some stn ∧
      find_song stn pk = some sn ∧
      sn.play_count = s.play_count + n ∧
      play_rows stn u pk = play_rows st u pk + n) :=
  ⟨play_song_step u pk t st s h, play_song_times_spec u pk t n st s h⟩

/-- Witness for C6 on a concrete store: one private song, three plays. -/
theorem C6_record_play_effects_witness :
    find_song demo_store 1 = some private_song ∧
    ((∃ st1, play_song 2 1 5 demo_store = some (st1, private_song.play_count + 1) ∧
      find_song st1 1 = some (increment_play_count private_song) ∧
      st1.play_history = demo_store.play_history ++ [⟨2, 1, 5⟩] ∧
      play_rows st1 2 1 = play_rows demo_store 2 1 + 1) ∧
    (∃ stn sn, play_song_times 2 1 5 3 demo_store = some stn ∧
      find_song stn 1 = some sn ∧
      sn.play_count = private_song.play_count + 3 ∧
      play_rows stn 2 1 = play_rows demo_store 2 1 + 3)) :=
  ⟨by decide, C6_record_play_effects 2 1 5 3 demo_store private_song (by decide)⟩

/-- A failing lookup means no row satisfies the predicate. -/
theorem count_zero_of_find?_none {α : Type} (p : α → Bool) (l : List α)
    (h : l.find? p = none) : (l.filter p).length = 0 := by
  rw [List.length_eq_zero, List.filter_eq_nil_iff]
  exact fun a ha => List.find?_eq_none.mp h a ha

/-- Conversely, an empty filtered table makes the lookup fail. -/
theorem find?_none_of_count_zero {α : Type} (p : α → Bool) (l : List α)
    (h : (l.filter p).length = 0) : l.find? p = none := by
  rw [List.length_eq_zero, List.filter_eq_nil_iff] at h
  exact List.find?_eq_none.mpr h

/-- Deleting a row that satisfies the predicate lowers the filtered count
by exactly one. -/
theorem length_filter_erase {α : Type} [DecidableEq α] (p : α → Bool)
    (l : List α) (a : α) (ha : a ∈ l) (hp : p a = true) :
    ((l.erase a).filter p).length + 1 = (l.filter p).length := by
  have h3 := (List.perm_cons_erase ha).filter p
  have h4 := h3.length_eq
  rw [List.filter_cons_of_pos hp] at h4
  simp only [List.length_cons] at h4
  omega

/-- C8: under the (user, song) uniqueness invariant, two successive
`toggle_favorite` calls flip the returned state and restore the row count;
starting unfavorited they return true then false and leave zero rows. -/
theorem C8_toggle_favorite_involutive (u s t1 t2 : Nat) (st : Store)
    (h : count_favorites st u s ≤ 1) :
    (toggle_favorite u s t2 (toggle_favorite u s t1 st).1).2
        = !(toggle_favorite u s t1 st).2 ∧
    count_favorites (toggle_favorite u s t2 (toggle_favorite u s t1 st).1).1 u s
        = count_favorites st u s ∧
    (count_favorites st u s = 0 →
      (toggle_favorite u s t1 st).2 = true ∧
      (toggle_favorite u s t2 (toggle_favorite u s t1 st).1).2 = false ∧
      count_favorites (toggle_favorite u s t2 (toggle_favorite u s t1 st).1).1 u s = 0) := by
  cases hfind : st.favorites.find? (fun f => f.user == u && f.song == s) with
  | none =>
      have hc0 : (st.favorites.filter (fun f => f.user == u && f.song == s)).length = 0 :=
        count_zero_of_find?_none _ _ hfind
      have hfind2 : List.find? (fun f => f.user == u && f.song == s)
          (st.favorites ++ [(⟨u, s, t1⟩ : Favorite)]) = some ⟨u, s, t1⟩ := by
        rw [List.find?_append, hfind]
        simp
      have happ : ((st.favorites ++ [(⟨u, s, t1⟩ : Favorite)]).filter
          (fun f => f.user == u && f.song == s)).length = 1 := by
        simp [List.filter_append, hc0]
      have herase := length_filter_erase (fun f : Favorite => f.user == u && f.song == s)
        (st.favorites ++ [(⟨u, s, t1⟩ : Favorite)]) ⟨u, s, t1⟩ (by simp) (by simp)
      simp only [toggle_favorite, hfind, hfind2, count_favorites]
      refine ⟨rfl, by omega, fun _ => ⟨trivial, trivial, by omega⟩⟩
  | some f =>
      have hp : (f.user == u && f.song == s) = true := by
        simpa using List.find?_some hfind
      have hmem : f ∈ st.favorites := List.mem_of_find?_eq_some hfind
      have herase := length_filter_erase (fun f : Favorite => f.user == u && f.song == s)
        st.favorites f hmem hp
      have hpos : 0 < (st.favorites.filter (fun f => f.user == u && f.song == s)).length :=
        List.length_pos_of_mem (List.mem_filter.mpr ⟨hmem, hp⟩)
      have hcnt : count_favorites st u s
          = (st.favorites.filter (fun f => f.user == u && f.song == s)).length := rfl
      have hce : ((st.favorites.erase f).filter
          (fun f => f.user == u && f.song == s)).length = 0 := by
        rw [hcnt] at h
        omega
      have hfind2 : List.find? (fun f => f.user == u && f.song == s)
          (st.favorites.erase f) = none :=
        find?_none_of_count_zero _ _ hce
      have happ2 : ((st.favorites.erase f ++ [(⟨u, s, t2⟩ : Favorite)]).filter
          (fun f => f.user == u && f.song == s)).length = 1 := by
        simp [List.filter_append, hce]
      simp only [toggle_favorite, hfind, hfind2, count_favorites]
      refine ⟨rfl, by omega, fun h0 => absurd h0 (by omega)⟩

/-- Witness for C8: toggling twice on the empty favorite table of the demo
store. -/
theorem C8_toggle_favorite_involutive_witness :
    count_favorites demo_store 2 1 ≤ 1 ∧
    ((toggle_favorite 2 1 6 (toggle_favorite 2 1 5 demo_store).1).2
        = !(toggle_favorite 2 1 5 demo_store).2 ∧
    count_favorites (toggle_favorite 2 1 6 (toggle_favorite 2 1 5 demo_store).1).1 2 1
        = count_favorites demo_store 2 1 ∧
    (count_favorites demo_store 2 1 = 0 →
      (toggle_favorite 2 1 5 demo_store).2 = true ∧
      (toggle_favorite 2 1 6 (toggle_favorite 2 1 5 demo_store).1).2 = false ∧
      count_favorites (toggle_favorite 2 1 6 (toggle_favorite 2 1 5 demo_store).1).1 2 1 = 0)) :=
  ⟨by decide, C8_toggle_favorite_involutive 2 1 5 6 demo_store (by decide)⟩

/-- Upserting into a table holding at most one row for the pair leaves the
pair with exactly one row carrying the new value. -/
theorem upsert_rating_rows (u s : Nat) (v : Int) (l : List Rating)
    (h : (l.filter (fun r => r.user == u && r.song == s)).length ≤ 1) :
    ((upsert_rating u s v l).filter (fun r => r.user == u && r.song == s)).map
        (fun r => r.rating) = [v] := by
  induction l with
  | nil => simp [upsert_rating]
  | cons r rs ih =>
      cases hr : (r.user == u && r.song == s) with
      | true =>
          have hfc : List.filter (fun x => x.user == u && x.song == s) (r :: rs)
              = r :: List.filter (fun x => x.user == u && x.song == s) rs := by
            simp [List.filter_cons, hr]
          rw [hfc] at h
          simp only [List.length_cons] at h
          have hnil : rs.filter (fun x => x.user == u && x.song == s) = [] :=
            List.length_eq_zero.mp (by omega)
          simp [upsert_rating, hr, List.filter_cons, hnil]
      | false =>
          have hfc : List.filter (fun x => x.user == u && x.song == s) (r :: rs)
              = List.filter (fun x => x.user == u && x.song == s) rs := by
            simp [List.filter_cons, hr]
          rw [hfc] at h
          have h2 := ih h
          simpa [upsert_rating, hr, List.filter_cons] using h2

/-- C7: `add_rating` with an in-range value upserts by (user, song): the
pair afterwards has exactly one row carrying that value, a second in-range
value overwrites it, and an out-of-range value leaves the store untouched. -/
theorem C7_set_rating_upsert (u s : Nat) (v w : Int) (st : Store)
    (hv : 1 ≤ v ∧ v ≤ 5) (hc : (rating_rows st u s).length ≤ 1) :
    rating_rows (add_rating u s v st) u s = [v] ∧
    (1 ≤ w ∧ w ≤ 5 → rating_rows (add_rating u s w (add_rating u s v st)) u s = [w]) ∧
    (¬(1 ≤ w ∧ w ≤ 5) → add_rating u s w st = st) := by
  have hc' : (st.ratings.filter (fun r => r.user == u && r.song == s)).length ≤ 1 := by
    simpa [rating_rows] using hc
  have h1 : rating_rows (add_rating u s v st) u s = [v] := by
    simp only [add_rating, if_pos hv, rating_rows]
    exact upsert_rating_rows u s v st.ratings hc'
  refine ⟨h1, fun hw => ?_, fun hw => by simp [add_rating, hw]⟩
  have hc2 : ((add_rating u s v st).ratings.filter
      (fun r => r.user == u && r.song == s)).length ≤ 1 := by
    have := congrArg List.length h1
    simpa [rating_rows] using Nat.le_of_eq this
  simp only [add_rating, if_pos hw, rating_rows]
  exact upsert_rating_rows u s w (add_rating u s v st).ratings hc2

/-- Witness for C7: rate 3 then 5 on the demo store. -/
theorem C7_set_rating_upsert_witness :
    rating_rows (add_rating 2 1 3 demo_store) 2 1 = [3] ∧
    (1 ≤ (5 : Int) ∧ (5 : Int) ≤ 5 →
      rating_rows (add_rating 2 1 5 (add_rating 2 1 3 demo_store)) 2 1 = [5]) ∧
    (¬(1 ≤ (5 : Int) ∧ (5 : Int) ≤ 5) → add_rating 2 1 5 demo_store = demo_store) :=
  C7_set_rating_upsert 2 1 3 5 demo_store (by decide) (by decide)

/-- C1 (code bug): on a store holding a private song and a private
playlist of user 1, the non-staff stranger user 2 is rejected with the
permission error by `song_detail`, `download_song`, `edit_song` and
`delete_song`, while the owner-filtered playlist fetch of `edit_playlist`
and `delete_playlist` answers 404 instead of a permission error; but
`play_song` performs no visibility check at all: it succeeds for user 2 on
the private song and records the play. -/
theorem C1_play_song_skips_visibility_check :
    song_detail_check bob 1 demo_store = .permission_denied ∧
    download_song_check bob 1 demo_store = .permission_denied ∧
    edit_song_check bob 1 demo_store = .permission_denied ∧
    delete_song_check bob 1 demo_store = .permission_denied ∧
    playlist_detail_check bob 1 demo_store = .permission_denied ∧
    edit_playlist_check bob 1 demo_store = .not_found ∧
    delete_playlist_check bob 1 demo_store = .not_found ∧
    (play_song bob.id 1 5 demo_store).isSome = true ∧
    (play_song bob.id 1 5 demo_store).map (fun r => play_rows r.1 bob.id 1) = some 1 := by
  decide

/-- C10: a `Song` created without an explicit visibility value defaults to
public and is visible to every user, while a `Playlist` created without an
explicit visibility value defaults to private and is visible only to its
owner. -/
theorem C10_visibility_defaults (uploader owner pk date u : Nat) :
    (create_song uploader pk date none).is_public = true ∧
    song_visible_to u (create_song uploader pk date none) = true ∧
    (create_playlist owner pk none).is_public = false ∧
    (playlist_visible_to u (create_playlist owner pk none) = true ↔ u = owner) := by
  refine ⟨rfl, by simp [song_visible_to, create_song, Song.is_public_default], rfl, ?_⟩
  simp only [playlist_visible_to, create_playlist, Playlist.is_public_default,
    Option.getD_none, Bool.false_or, beq_iff_eq]
  exact eq_comm

/-- Counterexample for C3: the schema declares no server-side unique
constraint on `Artist.name` or on the `Album` natural key, so the store
accepts a duplicate `Artist` row; only `Genre.name` is constrained. -/
theorem C3_artist_unique_counterexample :
    Artist.name_unique = false ∧ Album.natural_key_unique = false ∧
    ((db_insert_artist "Radiohead" (db_insert_artist "Radiohead" Store.empty)).artists.filter
      (fun a => a.name == "Radiohead")).length = 2 := by
  decide

/-- C3 (amended): `resolve_artist` is idempotent per trimmed name under
sequential calls — the second call returns the same identifier and leaves
the store unchanged, and a first call on a store without the name leaves
exactly one row with it — while server-side uniqueness is enforced for
`Genre.name` but not for `Artist.name` or the `Album` natural key. -/
theorem C3_resolve_artist_idempotent (name : String) (st : Store) :
    resolve_artist name (resolve_artist name st).2 = resolve_artist name st ∧
    ((st.artists.filter (fun a => a.name == name.trim)).length = 0 →
      ((resolve_artist name st).2.artists.filter
        (fun a => a.name == name.trim)).length = 1) ∧
    Genre.name_unique = true ∧ Artist.name_unique = false ∧
    Album.natural_key_unique = false := by
  cases hfind : st.artists.find? (fun a => a.name == name.trim) with
  | some a =>
      refine ⟨by simp [resolve_artist, hfind], fun h0 => ?_, rfl, rfl, rfl⟩
      have hp : (a.name == name.trim) = true := by
        simpa using List.find?_some hfind
      have hmem : a ∈ st.artists := List.mem_of_find?_eq_some hfind
      have hpos : 0 < (st.artists.filter (fun a => a.name == name.trim)).length :=
        List.length_pos_of_mem (List.mem_filter.mpr ⟨hmem, hp⟩)
      simp only [resolve_artist, hfind]
      omega
  | none =>
      have hfind2 : List.find? (fun a => a.name == name.trim)
          (st.artists ++ [(⟨st.next_id, name.trim⟩ : Artist)])
          = some ⟨st.next_id, name.trim⟩ := by
        rw [List.find?_append, hfind]
        simp
      refine ⟨?_, fun h0 => ?_, rfl, rfl, rfl⟩
      · simp [resolve_artist, hfind, hfind2]
      · simp only [resolve_artist, hfind]
        simp [List.filter_append, h0]

/-- Counterexample for C5: the allow-list of `song_list` holds neither
upload date ascending nor title descending; a supplied `upload_date`
(ascending) key falls back to the newest-first default instead of sorting
ascending. -/
theorem C5_sort_counterexample :
    "upload_date" ∉ valid_sorts ∧ "-title" ∉ valid_sorts ∧
    apply_sort [] "upload_date" [late_song, early_song] = [late_song, early_song] ∧
    apply_sort [] "upload_date" [late_song, early_song] ≠ [early_song, late_song] := by
  decide

/-- The four allow-listed keys each reduce to the matching column sort,
and any other key falls back to the default newest-first sort. -/
theorem apply_sort_eq (arts : List Artist) (l : List Song) :
    apply_sort arts "-upload_date" l = List.insertionSort by_upload_date_desc l ∧
    apply_sort arts "title" l = List.insertionSort by_title_asc l ∧
    apply_sort arts "-play_count" l = List.insertionSort by_play_count_desc l ∧
    apply_sort arts "artist__name" l = List.insertionSort (by_artist_name_asc arts) l := by
  refine ⟨?_, ?_, ?_, ?_⟩ <;> simp [apply_sort, order_by_key, valid_sorts]

/-- C5 (amended): the accepted sort keys are exactly `-upload_date`,
`title`, `-play_count` and `artist__name`; each accepted key orders the
listing by its column, every other value is replaced by the default
newest-first ordering, and sorting always permutes the filtered songs. -/
theorem C5_sort_allow_list (arts : List Artist) (key : String) (l : List Song) :
    valid_sorts = ["-upload_date", "title", "-play_count", "artist__name"] ∧
    (key ∉ valid_sorts →
      apply_sort arts key l = List.insertionSort by_upload_date_desc l ∧
      List.Sorted by_upload_date_desc (apply_sort arts key l)) ∧
    List.Sorted by_upload_date_desc (apply_sort arts "-upload_date" l) ∧
    List.Sorted by_title_asc (apply_sort arts "title" l) ∧
    List.Sorted by_play_count_desc (apply_sort arts "-play_count" l) ∧
    List.Sorted (by_artist_name_asc arts) (apply_sort arts "artist__name" l) ∧
    List.Perm (apply_sort arts key l) l := by
  obtain ⟨h1, h2, h3, h4⟩ := apply_sort_eq arts l
  refine ⟨rfl, fun hk => ?_, ?_, ?_, ?_, ?_, ?_⟩
  · rw [apply_sort, if_neg hk]
    exact ⟨rfl, List.sorted_insertionSort _ _⟩
  · rw [h1]
    exact List.sorted_insertionSort _ _
  · rw [h2]
    exact List.sorted_insertionSort _ _
  · rw [h3]
    exact List.sorted_insertionSort _ _
  · rw [h4]
    exact List.sorted_insertionSort _ _
  · by_cases hk : key ∈ valid_sorts
    · simp only [valid_sorts, List.mem_cons, List.mem_singleton, List.not_mem_nil,
        or_false] at hk
      rcases hk with rfl | rfl | rfl | rfl
      · rw [h1]; exact List.perm_insertionSort _ _
      · rw [h2]; exact List.perm_insertionSort _ _
      · rw [h3]; exact List.perm_insertionSort _ _
      · rw [h4]; exact List.perm_insertionSort _ _
    · rw [apply_sort, if_neg hk]
      exact List.perm_insertionSort _ _

/-- Counterexample for C4: two songs each played once, the second more
recently.  The query sorts only by count descending, so the tie stays in
group order, while the ordering worded in the specification puts the most
recently played song first: the two computations disagree. -/
theorem C4_most_played_counterexample :
    most_played 7 [⟨7, 1, 1⟩, ⟨7, 2, 2⟩] 10 = [(1, 1), (2, 1)] ∧
    most_played_spec 7 [⟨7, 1, 1⟩, ⟨7, 2, 2⟩] 10 = [(2, 1), (1, 1)] ∧
    most_played 7 [⟨7, 1, 1⟩, ⟨7, 2, 2⟩] 10
      ≠ most_played_spec 7 [⟨7, 1, 1⟩, ⟨7, 2, 2⟩] 10 := by
  decide

/-- C4 (amended): `most_played` returns (song, count) pairs sorted by
count descending (ties in unspecified group order, with no recency key),
truncated to the limit, where each count is the number of history rows the user has for that song; on the spec example S1×3, S2×5, S3×1 it
returns S2, S1, S3 in that order. -/
theorem C4_most_played_ordering (u limit : Nat) (rows : List PlayHistoryRow) :
    List.Sorted by_plays_desc (most_played u rows limit) ∧
    (most_played u rows limit).length ≤ limit ∧
    (∀ p ∈ most_played u rows limit,
      p.2 = count_plays (my_rows u rows) p.1 ∧
      p.1 ∈ (my_rows u rows).map (fun r => r.song)) ∧
    user_stats_most_played 7 ex_history = [(2, 5), (1, 3), (3, 1)] := by
  refine ⟨?_, ?_, ?_, by decide⟩
  · exact List.Pairwise.sublist (List.take_sublist _ _) (List.sorted_insertionSort _ _)
  · simp only [most_played, List.length_take]
    omega
  · intro p hp
    simp only [most_played] at hp
    have hp1 := List.take_subset _ _ hp
    rw [List.mem_insertionSort] at hp1
    obtain ⟨s, hs, rfl⟩ := List.mem_map.mp hp1
    exact ⟨rfl, List.mem_dedup.mp hs⟩

/-- C9: the paginators use page sizes 20 (songs), 24 (artists) and 50
(history); a numeric page beyond the last resolves to the last page, an
absent or non-numeric page parameter resolves to page 1, and the resolved
page always lies between 1 and the page count, so no page parameter
escapes as an error; page 9999 of a 3-row song listing is page 1. -/
theorem C9_pagination_behaviour (p : PageParam) (count per : Nat) :
    song_list_per_page = 20 ∧ artist_list_per_page = 24 ∧
    play_history_per_page = 50 ∧
    1 ≤ num_pages count per ∧
    (∀ n : Int, p = .num n → (num_pages count per : Int) < n →
      resolve_page p (num_pages count per) = num_pages count per) ∧
    (p = .nonNumeric → resolve_page p (num_pages count per) = 1) ∧
    (p = .missing → resolve_page p (num_pages count per) = 1) ∧
    1 ≤ resolve_page p (num_pages count per) ∧
    resolve_page p (num_pages count per) ≤ num_pages count per ∧
    resolve_page (.num 9999) (num_pages 3 song_list_per_page) = 1 := by
  have hnp : 1 ≤ num_pages count per := le_max_left 1 _
  have hnp' : (1 : Int) ≤ (num_pages count per : Int) := by exact_mod_cast hnp
  refine ⟨rfl, rfl, rfl, hnp, ?_, ?_, ?_, ?_, ?_, by decide⟩
  · rintro n rfl hgt
    simp only [resolve_page]
    rw [if_neg (by omega), if_pos (by omega)]
  · rintro rfl
    rfl
  · rintro rfl
    rfl
  · cases p with
    | missing => exact le_rfl
    | nonNumeric => exact le_rfl
    | num n =>
        simp only [resolve_page]
        split
        · exact hnp
        · split
          · exact hnp
          · omega
  · cases p with
    | missing => exact hnp
    | nonNumeric => exact hnp
    | num n =>
        simp only [resolve_page]
        split
        · exact le_rfl
        · split
          · exact le_rfl
          · omega

end MusicLib
